import Mathlib

/-!
Verification development for the evalml-style pipeline core found in this
repository: `evalml/pipelines/classification_pipeline.py`,
`evalml/automl/utils.py` and the estimator export list
`evalml/pipelines/components/estimators/__init__.py`.

Python values, pandas series and dataframes are shallowly embedded:
dynamic scalars become `PyVal`, a `pd.Series` becomes a name plus a list of
values, a probability dataframe becomes labelled rational columns, and
raising code returns `Except`.  Behaviour of the pipeline base class and of
helpers that are declared only outside the sources (clone, equality,
`_score_all_objectives`, `generate_pipeline_code`, the not-yet-fitted
check) is modelled from the specification and marked as such in the
doc comment of the corresponding definition.
-/

namespace EvalML

/-- A dynamic Python scalar as it appears in targets and predictions:
an integer, a string, or a boolean (the docstring of `_decode_targets`
notes booleans may come back from predictions). -/
inductive PyVal where
  | int : Int → PyVal
  | str : String → PyVal
  | bool : Bool → PyVal
deriving DecidableEq

/-- Lexicographic (code-point) order on strings as lists of characters,
the order Python's `sorted` uses on `str`. -/
def strLeAux : List Char → List Char → Bool
  | [], _ => true
  | _ :: _, [] => false
  | a :: as, b :: bs =>
      if a.toNat < b.toNat then true
      else if b.toNat < a.toNat then false
      else strLeAux as bs

/-- Rank used only to totalise the order across heterogeneous scalars
(Python targets are homogeneous, so this extension is never exercised by
real data; it makes the sort total). -/
def PyVal.rank : PyVal → Nat
  | .bool _ => 0
  | .int _ => 1
  | .str _ => 2

/-- The order `sorted` applies to target values: numeric order on ints,
`False < True` on booleans, code-point lexicographic order on strings. -/
def pyLe : PyVal → PyVal → Bool
  | .bool x, .bool y => !x || y
  | .int i, .int j => decide (i ≤ j)
  | .str s, .str t => strLeAux s.data t.data
  | a, b => decide (a.rank ≤ b.rank)

/-- `pyLe` as a decidable relation, for use with `List.insertionSort`. -/
def pyLeProp (a b : PyVal) : Prop := pyLe a b = true

instance : DecidableRel pyLeProp := fun a b => inferInstanceAs (Decidable (pyLe a b = true))

theorem strLeAux_total : ∀ s t, strLeAux s t = true ∨ strLeAux t s = true
  | [], _ => Or.inl rfl
  | _ :: _, [] => Or.inr rfl
  | a :: as, b :: bs => by
      have ih := strLeAux_total as bs
      simp only [strLeAux]
      by_cases hab : a.toNat < b.toNat
      · simp [hab]
      · by_cases hba : b.toNat < a.toNat
        · simp [hab, hba]
        · simpa [hab, hba] using ih

theorem strLeAux_trans : ∀ s t u, strLeAux s t = true → strLeAux t u = true →
    strLeAux s u = true
  | [], _, _, _, _ => rfl
  | _ :: _, [], _, h1, _ => by simp [strLeAux] at h1
  | _ :: _, _ :: _, [], _, h2 => by simp [strLeAux] at h2
  | a :: as, b :: bs, c :: cs, h1, h2 => by
      have ih := strLeAux_trans as bs cs
      simp only [strLeAux] at h1 h2 ⊢
      by_cases hab : a.toNat < b.toNat <;> by_cases hba : b.toNat < a.toNat <;>
        by_cases hbc : b.toNat < c.toNat <;> by_cases hcb : c.toNat < b.toNat <;>
        by_cases hac : a.toNat < c.toNat <;> by_cases hca : c.toNat < a.toNat <;>
        simp_all <;> omega

instance : IsTotal PyVal pyLeProp := by
  constructor
  intro a b
  cases a <;> cases b <;>
    simp only [pyLeProp, pyLe, PyVal.rank] <;>
    first
      | exact Or.inl (by decide)
      | exact Or.inr (by decide)
      | (rename_i i j; exact (Int.le_total i j).imp (fun h => by simpa) (fun h => by simpa))
      | (rename_i s t; exact strLeAux_total s.data t.data)
      | (rename_i x y; cases x <;> cases y <;> simp)

instance : IsTrans PyVal pyLeProp := by
  constructor
  intro a b c hab hbc
  cases a <;> cases b <;> cases c <;>
    simp only [pyLeProp, pyLe, PyVal.rank, decide_eq_true_eq] at hab hbc ⊢
  case' int.int.int i j k => exact Int.le_trans hab hbc
  case' str.str.str s t u => exact strLeAux_trans _ _ _ hab hbc
  case' bool.bool.bool x y z => cases x <;> cases y <;> cases z <;> simp_all
  all_goals trivial

/-- `sorted(set(y))`: the distinct values of `y` in sorted order, as learned
by `LabelEncoder.fit` (docstring of `ClassificationPipeline.fit`: "classes
are sorted by sorted(set(y)) and then are mapped to values between 0 and
n_classes-1"). -/
def sortedUnique (y : List PyVal) : List PyVal :=
  List.insertionSort pyLeProp y.dedup

/-- sklearn's `LabelEncoder`: `classes_` is absent before `fit`. -/
structure LabelEncoder where
  classes_ : Option (List PyVal) := none
deriving DecidableEq

/-- `LabelEncoder.fit(y)`: learn the sorted distinct values of `y`. -/
def LabelEncoder.fit (_e : LabelEncoder) (y : List PyVal) : LabelEncoder :=
  ⟨some (sortedUnique y)⟩

/-- `LabelEncoder.transform(y)`: map each value to its index among the
learned classes; unseen values raise a `ValueError`. -/
def LabelEncoder.transform (e : LabelEncoder) (y : List PyVal) :
    Except String (List Nat) :=
  match e.classes_ with
  | none => .error "This LabelEncoder instance is not fitted yet"
  | some cs =>
      if y.all (fun v => cs.contains v) then
        .ok (y.map (fun v => cs.indexOf v))
      else .error "y contains previously unseen labels"

/-- `LabelEncoder.inverse_transform(codes)`: map each integer code back to
the class it indexes; out-of-range codes raise. -/
def LabelEncoder.inverse_transform (e : LabelEncoder) (codes : List Int) :
    Except String (List PyVal) :=
  match e.classes_ with
  | none => .error "This LabelEncoder instance is not fitted yet"
  | some cs =>
      if codes.all (fun i => decide (0 ≤ i) && decide (i.toNat < cs.length)) then
        .ok (codes.map (fun i => cs.getD i.toNat (PyVal.int 0)))
      else .error "y contains previously unseen labels"

/-- `y.astype(int)` on a single predicted value: ints unchanged, booleans
cast to 0/1 (the case the `_decode_targets` docstring calls out), strings
fail the cast. -/
def astypeInt : PyVal → Except String Int
  | .int i => .ok i
  | .bool b => .ok (if b then 1 else 0)
  | .str s => .error ("invalid literal for int: " ++ s)

/-- `y.astype(int)` over a whole prediction column. -/
def astypeIntList : List PyVal → Except String (List Int)
  | [] => .ok []
  | v :: vs =>
      match astypeInt v, astypeIntList vs with
      | .ok i, .ok is => .ok (i :: is)
      | .error e, _ => .error e
      | .ok _, .error e => .error e

/-- A `pd.Series` / `ww.DataColumn`: an optional column name and the data.
Row indexes are not modelled. -/
structure Series where
  name : Option String
  data : List PyVal
deriving DecidableEq

/-- A probability `ww.DataTable` after `predict_proba`'s column rename:
one label per column of rationals (floats carry no arithmetic here, so
rationals embed them faithfully). -/
structure DataTable where
  colLabels : List PyVal
  cols : List (List Rat)
deriving DecidableEq

/-- Problem types relevant to the claims (time-series variants are out of
scope of every claim). -/
inductive ProblemType where
  | binary
  | multiclass
  | regression
deriving DecidableEq

/-- Modelled from the spec: `is_binary` of `evalml.problem_types` (module
not under the sources) — true exactly for the binary problem type. -/
def is_binary (pt : ProblemType) : Bool := pt == ProblemType.binary

/-- The input an objective's scoring function receives: label predictions
or a probability table. -/
inductive ObjInput where
  | preds : List PyVal → ObjInput
  | proba : DataTable → ObjInput
deriving DecidableEq

/-- An objective, consumed through its narrow interface (spec §6): name,
whether scoring needs probabilities, the problem types it is defined for,
whether its decision threshold can be tuned, its scoring function (which
may raise: `Except`), and its own threshold-search procedure. -/
structure Objective where
  name : String
  score_needs_proba : Bool
  problem_types : List ProblemType
  can_optimize_threshold : Bool
  scoreFn : ObjInput → List Nat → Except String Rat
  optimizeThresholdFn : List Rat → List Nat → Rat

/-- `objective.is_defined_for_problem_type(problem_type)`. -/
def Objective.is_defined_for_problem_type (o : Objective) (pt : ProblemType) : Bool :=
  o.problem_types.contains pt

/-- `PipelineScoreError`: the aggregate scoring error, carrying the
per-objective captured exceptions, the successful scores, and the combined
message (modelled as the list of individual failure texts). -/
structure PipelineScoreError where
  exceptions : List (String × String)
  scored_successfully : List (String × Rat)
  message : List String
deriving DecidableEq

/-- The errors pipeline calls can raise. -/
inductive PipelineError where
  | notYetFitted : PipelineError
  | valueError : String → PipelineError
  | indexError : PipelineError
  | scoreError : PipelineScoreError → PipelineError
deriving DecidableEq

/-- A classification pipeline over a feature-matrix type `χ`.  The
component graph's inference behaviour is the opaque capability the spec
treats as an external collaborator: `graphPredictFn` is what
`self._component_graph.predict(X)` returns (integer-coded space) and
`graphPredictProbaFn` the estimator's raw probability columns.  Learned
state is the fitted label encoder, the encoded target the graph was fit
on, and the stored target name. -/
structure ClassificationPipeline (χ : Type) where
  pipelineClass : String
  parameters : List (String × List (String × PyVal))
  random_seed : Int
  problem_type : ProblemType
  graphPredictFn : χ → List PyVal
  graphPredictProbaFn : χ → List (List Rat)
  encoder : LabelEncoder := ⟨none⟩
  componentGraphTarget : Option (List Nat) := none
  input_target_name : Option String := none
  fitted : Bool := false
  threshold : Option Rat := none

namespace ClassificationPipeline

variable {χ : Type}

/-- `_encode_targets`: transform through the fitted encoder, re-raising
the encoder's `ValueError`. -/
def _encode_targets (p : ClassificationPipeline χ) (y : Series) :
    Except PipelineError (List Nat) :=
  match p.encoder.transform y.data with
  | .ok codes => .ok codes
  | .error e => .error (.valueError e)

/-- `_decode_targets`: cast predictions to int (`astype(int)`, handling
booleans), then `inverse_transform` through the encoder. -/
def _decode_targets (p : ClassificationPipeline χ) (ys : List PyVal) :
    Except PipelineError (List PyVal) :=
  match astypeIntList ys with
  | .error e => .error (.valueError e)
  | .ok ints =>
      match p.encoder.inverse_transform ints with
      | .ok vs => .ok vs
      | .error e => .error (.valueError e)

/-- `fit(X, y)`: fit the label encoder on `y`, encode `y`, and fit the
component graph on the encoded target.  Storing `input_target_name` and
the fitted flag is modelled from the spec (`PipelineBase._fit` is not
under the sources): the graph's training target is recorded in
`componentGraphTarget` as the learned-state proxy. -/
def fit (p : ClassificationPipeline χ) (y : Series) :
    Except PipelineError (ClassificationPipeline χ) :=
  match (p.encoder.fit y.data).transform y.data with
  | .error e => .error (.valueError e)
  | .ok codes =>
      .ok { p with
        encoder := p.encoder.fit y.data
        componentGraphTarget := some codes
        input_target_name := y.name
        fitted := true }

/-- `_predict`: raw component-graph predictions (integer-coded space). -/
def _predict (p : ClassificationPipeline χ) (x : χ) : List PyVal :=
  p.graphPredictFn x

/-- `predict`: decode the graph's predictions back to original label
values, named by the stored `input_target_name`.  The
`PipelineNotYetFittedError` guard is modelled from the spec
(`PipelineBase` is not under the sources). -/
def predict (p : ClassificationPipeline χ) (x : χ) :
    Except PipelineError Series :=
  if p.fitted then
    match p._decode_targets (p._predict x) with
    | .error e => .error e
    | .ok decoded => .ok ⟨p.input_target_name, decoded⟩
  else .error PipelineError.notYetFitted

/-- `predict_proba`: the estimator's probability columns with
`proba.columns = self._encoder.classes_` (pandas raises when the lengths
differ; before fit, accessing `classes_` fails, surfaced as the
not-yet-fitted error the spec prescribes). -/
def predict_proba (p : ClassificationPipeline χ) (x : χ) :
    Except PipelineError DataTable :=
  match p.encoder.classes_ with
  | none => .error PipelineError.notYetFitted
  | some cs =>
      let raw := p.graphPredictProbaFn x
      if raw.length = cs.length then .ok ⟨cs, raw⟩
      else .error (.valueError "Columns must be same length as key")

end ClassificationPipeline

/-- One inference invocation made while scoring, for stating how often each
kind of output is computed. -/
inductive InferCall where
  | callPredict
  | callPredictProba
deriving DecidableEq

namespace ClassificationPipeline

variable {χ : Type}

/-- `_compute_predictions(X, y, objectives)` (the `time_series=False`
branch): probabilities are computed iff some objective needs them, label
predictions iff some objective does not; each is computed by a single call
whose occurrence is recorded in the returned trace. -/
def _compute_predictions (p : ClassificationPipeline χ) (x : χ)
    (objectives : List Objective) :
    Except PipelineError ((Option (List PyVal) × Option DataTable) × List InferCall) :=
  if objectives.any (fun o => o.score_needs_proba) then
    match p.predict_proba x with
    | .error e => .error e
    | .ok t =>
        if objectives.any (fun o => !o.score_needs_proba) then
          .ok ((some (p._predict x), some t),
               [InferCall.callPredictProba, InferCall.callPredict])
        else .ok ((none, some t), [InferCall.callPredictProba])
  else
    if objectives.any (fun o => !o.score_needs_proba) then
      .ok ((some (p._predict x), none), [InferCall.callPredict])
    else .ok ((none, none), [])

end ClassificationPipeline

/-- Modelled from the spec: `PipelineBase._score` passes each objective the
inference output it needs — `y_pred_proba if objective.score_needs_proba
else y_pred` — together with the encoded targets. -/
def evalObjective (o : Objective) (yEnc : List Nat)
    (yPred : Option (List PyVal)) (yProba : Option DataTable) :
    Except String Rat :=
  if o.score_needs_proba then
    match yProba with
    | some t => o.scoreFn (ObjInput.proba t) yEnc
    | none => .error "no predicted probabilities were computed"
  else
    match yPred with
    | some l => o.scoreFn (ObjInput.preds l) yEnc
    | none => .error "no predictions were computed"

/-- One step of the scoring loop: a success appends to the success map, a
raise is captured into the failure map, and the loop continues. -/
def scoreStep (yEnc : List Nat) (yPred : Option (List PyVal))
    (yProba : Option DataTable)
    (acc : List (String × Rat) × List (String × String)) (o : Objective) :
    List (String × Rat) × List (String × String) :=
  match evalObjective o yEnc yPred yProba with
  | .ok v => (acc.1 ++ [(o.name, v)], acc.2)
  | .error e => (acc.1, acc.2 ++ [(o.name, e)])

/-- Modelled from the spec: `PipelineBase._score_all_objectives` — a fold
over the objectives collecting per-objective successes and captured
failures, raising a single `PipelineScoreError` at the boundary iff the
failure map is non-empty, and returning the success map otherwise. -/
def _score_all_objectives (objectives : List Objective) (yEnc : List Nat)
    (yPred : Option (List PyVal)) (yProba : Option DataTable) :
    Except PipelineError (List (String × Rat)) :=
  let r := objectives.foldl (scoreStep yEnc yPred yProba) ([], [])
  if r.2.isEmpty then .ok r.1
  else .error (.scoreError ⟨r.2, r.1, r.2.map Prod.snd⟩)

namespace ClassificationPipeline

variable {χ : Type}

/-- `score(X, y, objectives)`: encode the targets, compute whichever
inference outputs the objectives need, and aggregate per-objective results
with partial-failure capture. -/
def score (p : ClassificationPipeline χ) (x : χ) (y : Series)
    (objectives : List Objective) :
    Except PipelineError (List (String × Rat)) :=
  match p._encode_targets y with
  | .error e => .error e
  | .ok yEnc =>
      match p._compute_predictions x objectives with
      | .error e => .error e
      | .ok (outputs, _calls) =>
          _score_all_objectives objectives yEnc outputs.1 outputs.2

/-- Modelled from the spec: `PipelineBase.can_tune_threshold_with_objective`
— the problem type is binary and the objective both applies to the
pipeline's problem type and exposes a tunable decision threshold. -/
def can_tune_threshold_with_objective (p : ClassificationPipeline χ)
    (o : Objective) : Bool :=
  is_binary p.problem_type && o.is_defined_for_problem_type p.problem_type &&
    o.can_optimize_threshold

/-- `optimize_threshold(X, y, y_pred_proba, objective)`: when permitted,
set the threshold to the objective's own search over the encoded targets
and the predicted probabilities; otherwise raise a `ValueError`. -/
def optimize_threshold (p : ClassificationPipeline χ) (_x : χ) (y : Series)
    (y_pred_proba : List Rat) (o : Objective) :
    Except PipelineError (ClassificationPipeline χ) :=
  if p.can_tune_threshold_with_objective o then
    match p._encode_targets y with
    | .error e => .error e
    | .ok targets =>
        .ok { p with threshold := some (o.optimizeThresholdFn y_pred_proba targets) }
  else
    .error (PipelineError.valueError
      "Problem type must be binary and objective must be optimizable.")

/-- Modelled from the spec: `clone()` — a new, never-fitted instance with
the same parameters and random seed, sharing no learned state. -/
def clone (p : ClassificationPipeline χ) : ClassificationPipeline χ :=
  { pipelineClass := p.pipelineClass
    parameters := p.parameters
    random_seed := p.random_seed
    problem_type := p.problem_type
    graphPredictFn := p.graphPredictFn
    graphPredictProbaFn := p.graphPredictProbaFn }

end ClassificationPipeline

/-- Modelled from the spec: pipeline equality — same concrete class, same
parameters, same random seed, same fitted state, and, when both are
fitted, the same `input_target_name`. -/
def pipelineEq {χ : Type} (p q : ClassificationPipeline χ) : Bool :=
  decide (p.pipelineClass = q.pipelineClass) &&
  decide (p.parameters = q.parameters) &&
  decide (p.random_seed = q.random_seed) &&
  decide (p.fitted = q.fitted) &&
  (!(p.fitted && q.fitted) || decide (p.input_target_name = q.input_target_name))

/-- `tune_binary_threshold` from `evalml/automl/utils.py`: under the guard
(binary problem type, objective defined for it, tunable threshold) the
threshold is set to 0.5, then, if tuning data was supplied, re-tuned via
`optimize_threshold` on the second probability column
(`predict_proba(...).iloc[:, 1]`); outside the guard nothing happens. -/
def tune_binary_threshold {χ : Type} (pipeline : ClassificationPipeline χ)
    (objective : Objective) (problem_type : ProblemType)
    (X_threshold_tuning : Option χ) (y_threshold_tuning : Series) :
    Except PipelineError (ClassificationPipeline χ) :=
  if is_binary problem_type &&
      objective.is_defined_for_problem_type problem_type &&
      objective.can_optimize_threshold then
    let p1 := { pipeline with threshold := some (1 / 2 : Rat) }
    match X_threshold_tuning with
    | some xt =>
        match p1.predict_proba xt with
        | .error e => .error e
        | .ok proba =>
            match proba.cols.get? 1 with
            | some col1 => p1.optimize_threshold xt y_threshold_tuning col1 objective
            | none => .error PipelineError.indexError
    | none => .ok p1
  else .ok pipeline

/-- Modelled from the spec: a component parameter value as the
generated-code export sees it — either a JSON-representable scalar or an
arbitrary object/array (described by name) the JSON serializer rejects. -/
inductive CodeGenParamValue where
  | jsonVal : PyVal → CodeGenParamValue
  | nonSerializable : String → CodeGenParamValue
deriving DecidableEq

/-- Modelled from the spec: the view of a pipeline that generated-code
export consumes — whether the component graph is linear, the class name,
and the per-component parameter mappings. -/
structure CodeGenPipeline where
  linear : Bool
  className : String
  parameters : List (String × List (String × CodeGenParamValue))
deriving DecidableEq

/-- The two fatal errors of generated-code export. -/
inductive CodeGenError where
  | valueError : String → CodeGenError
  | typeError : String → CodeGenError
deriving DecidableEq

/-- First parameter value (if any) the JSON serializer rejects, reported
by its description. -/
def firstNonSerializable
    (params : List (String × List (String × CodeGenParamValue))) :
    Option String :=
  params.findSome? (fun cp => cp.2.findSome? (fun kv =>
    match kv.2 with
    | .nonSerializable d => some d
    | .jsonVal _ => none))

/-- JSON rendering of a serializable scalar. -/
def pyValToJson : PyVal → String
  | .int i => toString i
  | .str s => "\x22" ++ s ++ "\x22"
  | .bool b => if b then "true" else "false"

/-- The JSON text of one component's parameters. -/
def renderComponentParams (ps : List (String × CodeGenParamValue)) : String :=
  String.intercalate ", " (ps.map (fun kv =>
    "\x22" ++ kv.1 ++ "\x22: " ++
      (match kv.2 with
       | .jsonVal v => pyValToJson v
       | .nonSerializable d => d)))

/-- The re-loadable construction script for a linear serializable
pipeline. -/
def renderScript (p : CodeGenPipeline) : String :=
  "import json\n" ++ "class " ++ p.className ++ "\n" ++
    "parameters = json.loads(\x22\x22\x22\x7b" ++
    String.intercalate ", " (p.parameters.map (fun cp =>
      "\x22" ++ cp.1 ++ "\x22: \x7b" ++ renderComponentParams cp.2 ++ "\x7d")) ++
    "\x7d\x22\x22\x22)\n" ++ "pipeline = " ++ p.className ++ "(parameters)"

/-- Modelled from the spec: `generate_pipeline_code` (declared outside the
sources; its tests are under the sources) — non-linear pipelines are
rejected with the "not supported yet" value error, a parameter value the
JSON serializer rejects raises a type error naming the offending value,
and otherwise the textual construction script is produced. -/
def generate_pipeline_code (p : CodeGenPipeline) : Except CodeGenError String :=
  if !p.linear then
    .error (.valueError "Code generation for nonlinear pipelines is not supported yet")
  else
    match firstNonSerializable p.parameters with
    | some d => .error (.typeError (d ++ " cannot be JSON-serialized"))
    | none => .ok (renderScript p)

/-- The regressor import block of
`evalml/pipelines/components/estimators/__init__.py`, line for line. -/
def regressors_import_lines : List String :=
  [ "from .regressors import (LinearRegressor,"
  , "                         RandomForestRegressor,"
  , "                         CatBoostRegressor,"
  , "                         XGBoostRegressor,"
  , "                         ElasticNetRegressor,"
  , "                         ExtraTreesRegressor,"
  , "                         BaselineRegressor,"
  , "<<<<<<< HEAD"
  , "                         DecisionTreeRegressor,"
  , "                         GAMRegressor)"
  , "======="
  , "                         TimeSeriesBaselineRegressor,"
  , "                         DecisionTreeRegressor)"
  , ">>>>>>> main"
  ]

/-- Whether `l` starts with `pre` (on character lists, so it computes by
kernel reduction). -/
def lineStartsWith (pre l : String) : Bool :=
  pre.data.isPrefixOf l.data

/-- A literal version-control conflict-marker line. -/
def conflictMarkerLine (l : String) : Bool :=
  lineStartsWith "<<<<<<<" l || lineStartsWith "=======" l ||
    lineStartsWith ">>>>>>>" l

/-- Whether a module source still holds an unresolved merge conflict. -/
def hasMergeConflict (lines : List String) : Bool :=
  lines.any conflictMarkerLine

/-- Modelled from the spec: importing a Python module parses its source;
a conflict-marker line is not a syntactically valid Python statement, so a
module holding one raises instead of producing its export list. -/
def importEstimatorsModule (lines : List String) : Except String (List String) :=
  if hasMergeConflict lines then .error "SyntaxError: invalid syntax"
  else .ok lines

/-- Strip an import-list line down to the imported identifier (drop
indentation, trailing commas and closing parens). -/
def stripImportEntry (l : String) : String :=
  String.mk (l.data.filter (fun c => c ≠ ' ' && c ≠ ')' && c ≠ ','))

/-- The import entries of the `HEAD` side of the conflict. -/
def headBranchEntries (lines : List String) : List String :=
  ((((lines.dropWhile (fun l => !lineStartsWith "<<<<<<<" l)).drop 1).takeWhile
      (fun l => !lineStartsWith "=======" l)).map stripImportEntry)

/-- The import entries of the `main` side of the conflict. -/
def mainBranchEntries (lines : List String) : List String :=
  ((((lines.dropWhile (fun l => !lineStartsWith "=======" l)).drop 1).takeWhile
      (fun l => !lineStartsWith ">>>>>>>" l)).map stripImportEntry)

/-- The objectives that scored without raising, each mapped to its value
(the success map the aggregation collects). -/
def successesOf (objectives : List Objective) (yEnc : List Nat)
    (yPred : Option (List PyVal)) (yProba : Option DataTable) :
    List (String × Rat) :=
  objectives.filterMap (fun o =>
    match evalObjective o yEnc yPred yProba with
    | .ok v => some (o.name, v)
    | .error _ => none)

/-- The objectives whose scoring raised, each mapped to its captured
exception text (the failure map the aggregation collects). -/
def failuresOf (objectives : List Objective) (yEnc : List Nat)
    (yPred : Option (List PyVal)) (yProba : Option DataTable) :
    List (String × String) :=
  objectives.filterMap (fun o =>
    match evalObjective o yEnc yPred yProba with
    | .ok _ => none
    | .error e => some (o.name, e))

theorem sortedUnique_mem (y : List PyVal) (v : PyVal) :
    v ∈ sortedUnique y ↔ v ∈ y := by
  unfold sortedUnique
  rw [(List.perm_insertionSort pyLeProp y.dedup).mem_iff, List.mem_dedup]

theorem sortedUnique_nodup (y : List PyVal) : (sortedUnique y).Nodup :=
  (List.perm_insertionSort pyLeProp y.dedup).nodup_iff.mpr (List.nodup_dedup y)

theorem sortedUnique_sorted (y : List PyVal) :
    List.Pairwise pyLeProp (sortedUnique y) :=
  List.sorted_insertionSort pyLeProp y.dedup

theorem transform_sortedUnique (y : List PyVal) :
    LabelEncoder.transform ⟨some (sortedUnique y)⟩ y =
      Except.ok (y.map (fun v => (sortedUnique y).indexOf v)) := by
  unfold LabelEncoder.transform
  dsimp only
  rw [if_pos]
  exact List.all_eq_true.2 fun v hv =>
    List.elem_iff.mpr ((sortedUnique_mem y v).mpr hv)

/-- After `fit`, the pipeline holds the sorted distinct classes, the
encoded target the graph was fit on (each value's index among the
classes), the target name, and the fitted flag. -/
theorem ClassificationPipeline.fit_eq {χ : Type}
    (p : ClassificationPipeline χ) (y : Series) :
    p.fit y = Except.ok { p with
      encoder := ⟨some (sortedUnique y.data)⟩
      componentGraphTarget :=
        some (y.data.map (fun v => (sortedUnique y.data).indexOf v))
      input_target_name := y.name
      fitted := true } := by
  unfold ClassificationPipeline.fit
  have hfit : p.encoder.fit y.data = ⟨some (sortedUnique y.data)⟩ := rfl
  rw [hfit, transform_sortedUnique]

theorem astypeIntList_ints (ks : List Int) :
    astypeIntList (ks.map PyVal.int) = Except.ok ks := by
  induction ks with
  | nil => rfl
  | cons k ks ih => simp [astypeIntList, astypeInt, ih]

/-- If every value casts to an int satisfying `Q`, the whole column casts
and every cast result satisfies `Q`. -/
theorem astypeIntList_ok_of {Q : Int → Prop} :
    ∀ (l : List PyVal), (∀ v ∈ l, ∃ i, astypeInt v = Except.ok i ∧ Q i) →
      ∃ ks, astypeIntList l = Except.ok ks ∧ ∀ i ∈ ks, Q i
  | [], _ => ⟨[], rfl, by simp⟩
  | v :: vs, h => by
      obtain ⟨i, hi, hQ⟩ := h v (List.mem_cons_self v vs)
      obtain ⟨ks, hks, hQs⟩ :=
        astypeIntList_ok_of vs (fun w hw => h w (List.mem_cons_of_mem v hw))
      refine ⟨i :: ks, ?_, ?_⟩
      · simp [astypeIntList, hi, hks]
      · intro j hj
        rcases List.mem_cons.mp hj with h' | h'
        · exact h' ▸ hQ
        · exact hQs j h'

/-- Codes obtained by encoding decode back to the original values:
`inverse_transform` undoes `transform` on the training target. -/
theorem inverse_transform_indexOf (y : List PyVal) :
    LabelEncoder.inverse_transform ⟨some (sortedUnique y)⟩
      ((y.map (fun v => (sortedUnique y).indexOf v)).map Int.ofNat) =
      Except.ok y := by
  unfold LabelEncoder.inverse_transform
  dsimp only
  rw [if_pos]
  · rw [List.map_map, List.map_map]
    refine congrArg Except.ok ?_
    have h1 : ∀ v ∈ y,
        (((fun i => (sortedUnique y).getD i.toNat (PyVal.int 0)) ∘ Int.ofNat) ∘
          fun v => (sortedUnique y).indexOf v) v = id v := by
      intro v hv
      have hlt : (sortedUnique y).indexOf v < (sortedUnique y).length :=
        List.indexOf_lt_length.mpr ((sortedUnique_mem y v).mpr hv)
      simp only [Function.comp_apply, id_eq]
      have h2 : (Int.ofNat ((sortedUnique y).indexOf v)).toNat =
          (sortedUnique y).indexOf v := rfl
      rw [h2, List.getD_eq_getElem _ _ hlt]
      exact List.getElem_indexOf hlt
    rw [List.map_congr_left h1, List.map_id]
  · refine List.all_eq_true.2 fun i hi => ?_
    rw [List.map_map] at hi
    obtain ⟨v, hv, rfl⟩ := List.mem_map.mp hi
    have hlt : (sortedUnique y).indexOf v < (sortedUnique y).length :=
      List.indexOf_lt_length.mpr ((sortedUnique_mem y v).mpr hv)
    simp [hlt]

/-- Inverse transform of in-range codes succeeds and lands in the class
set. -/
theorem inverse_transform_mem (cs : List PyVal) (ks : List Int)
    (h : ∀ i ∈ ks, 0 ≤ i ∧ i.toNat < cs.length) :
    ∃ vs, LabelEncoder.inverse_transform ⟨some cs⟩ ks = Except.ok vs ∧
      ∀ w ∈ vs, w ∈ cs := by
  unfold LabelEncoder.inverse_transform
  dsimp only
  rw [if_pos]
  · refine ⟨_, rfl, ?_⟩
    intro w hw
    obtain ⟨i, hi, rfl⟩ := List.mem_map.mp hw
    rw [List.getD_eq_getElem _ _ (h i hi).2]
    exact List.getElem_mem _
  · exact List.all_eq_true.2 fun i hi => by
      simp [(h i hi).1, (h i hi).2]

theorem foldl_scoreStep (yEnc : List Nat) (yPred : Option (List PyVal))
    (yProba : Option DataTable) :
    ∀ (objs : List Objective) (s : List (String × Rat))
      (f : List (String × String)),
      objs.foldl (scoreStep yEnc yPred yProba) (s, f) =
        (s ++ successesOf objs yEnc yPred yProba,
         f ++ failuresOf objs yEnc yPred yProba)
  | [], s, f => by simp [successesOf, failuresOf]
  | o :: os, s, f => by
      have ih := foldl_scoreStep yEnc yPred yProba os
      cases h : evalObjective o yEnc yPred yProba <;>
        simp [successesOf, failuresOf, scoreStep, h, ih]

/-- `_score_all_objectives` returns the success map when no objective
raised, and otherwise the aggregate error built from the two maps. -/
theorem score_all_objectives_eq (objs : List Objective) (yEnc : List Nat)
    (yPred : Option (List PyVal)) (yProba : Option DataTable) :
    _score_all_objectives objs yEnc yPred yProba =
      (if failuresOf objs yEnc yPred yProba = [] then
        Except.ok (successesOf objs yEnc yPred yProba)
      else
        Except.error (PipelineError.scoreError
          ⟨failuresOf objs yEnc yPred yProba,
           successesOf objs yEnc yPred yProba,
           (failuresOf objs yEnc yPred yProba).map Prod.snd⟩)) := by
  unfold _score_all_objectives
  rw [foldl_scoreStep]
  simp [List.isEmpty_iff]

/-! ### Concrete fixtures used by witnesses and counterexamples -/

/-- Graph predictions of the mock pipeline: codes 1 then 0. -/
def mockGraphPredict : Unit → List PyVal := fun _ => [PyVal.int 1, PyVal.int 0]

/-- Probability columns of the mock pipeline (two columns). -/
def mockGraphProba : Unit → List (List Rat) :=
  fun _ => [[1 / 10, 9 / 10], [9 / 10, 1 / 10]]

/-- An unfitted mock binary pipeline over unit feature matrices. -/
def mockPipeline : ClassificationPipeline Unit :=
  { pipelineClass := "MockBinaryClassificationPipeline"
    parameters := [("Mock Classifier", [("a", PyVal.int 1)])]
    random_seed := 0
    problem_type := ProblemType.binary
    graphPredictFn := mockGraphPredict
    graphPredictProbaFn := mockGraphProba }

/-- A string-labelled training target named "target". -/
def mockTarget : Series := ⟨some "target", [PyVal.str "a", PyVal.str "b"]⟩

/-- `mockPipeline` after fitting on `mockTarget`. -/
def mockFitted : ClassificationPipeline Unit :=
  { mockPipeline with
    encoder := ⟨some [PyVal.str "a", PyVal.str "b"]⟩
    componentGraphTarget := some [0, 1]
    input_target_name := some "target"
    fitted := true }

/-- An objective that scores without raising. -/
def okObjective : Objective :=
  { name := "MSE"
    score_needs_proba := false
    problem_types := [ProblemType.binary, ProblemType.regression]
    can_optimize_threshold := false
    scoreFn := fun _ _ => .ok 0
    optimizeThresholdFn := fun _ _ => 0 }

/-- An objective whose scoring function raises. -/
def badObjective : Objective :=
  { name := "R2"
    score_needs_proba := false
    problem_types := [ProblemType.binary, ProblemType.regression]
    can_optimize_threshold := false
    scoreFn := fun _ _ => .error "finna kabooom"
    optimizeThresholdFn := fun _ _ => 0 }

/-- An objective that needs probabilities. -/
def probaObjective : Objective :=
  { name := "Log Loss Binary"
    score_needs_proba := true
    problem_types := [ProblemType.binary]
    can_optimize_threshold := false
    scoreFn := fun _ _ => .ok 0
    optimizeThresholdFn := fun _ _ => 0 }

/-- An objective with a tunable decision threshold whose own search
returns 42/100. -/
def tunableObjective : Objective :=
  { name := "F1"
    score_needs_proba := true
    problem_types := [ProblemType.binary, ProblemType.multiclass]
    can_optimize_threshold := true
    scoreFn := fun _ _ => .ok 1
    optimizeThresholdFn := fun _ _ => 42 / 100 }

/-- A probe objective that scores successfully only when handed the
decoded original labels (what `predict` would return). -/
def probeDecoded : Objective :=
  { name := "probe-decoded"
    score_needs_proba := false
    problem_types := [ProblemType.binary]
    can_optimize_threshold := false
    scoreFn := fun inp _ =>
      if inp = ObjInput.preds [PyVal.str "b", PyVal.str "a"] then .ok 1
      else .error "objective received integer-encoded predictions"
    optimizeThresholdFn := fun _ _ => 0 }

/-- A probe objective that scores successfully only when handed the raw
integer-coded graph predictions. -/
def probeEncoded : Objective :=
  { name := "probe-encoded"
    score_needs_proba := false
    problem_types := [ProblemType.binary]
    can_optimize_threshold := false
    scoreFn := fun inp _ =>
      if inp = ObjInput.preds [PyVal.int 1, PyVal.int 0] then .ok 1
      else .error "objective did not receive the raw codes"
    optimizeThresholdFn := fun _ _ => 0 }

/-- A fitted multiclass pipeline with a pre-set threshold of 7/10. -/
def mockMulticlassTuned : ClassificationPipeline Unit :=
  { mockFitted with
    problem_type := ProblemType.multiclass
    threshold := some (7 / 10 : Rat) }

/-! ### Claim theorems -/

/-- C1: for every fitted pipeline whose target encodes and whose inference
succeeds, and every non-empty objective list: when some objective's
scoring raises, `score` raises one aggregate error whose success map holds
exactly the objectives that scored without raising together with their
values, whose failure map holds each raising objective's captured
exception, and whose combined message carries each failure text; when no
objective raises, `score` returns the plain name-to-value mapping.  One
objective raising does not stop the remaining objectives from being
scored. -/
theorem score_partial_failure {χ : Type} (p : ClassificationPipeline χ) (x : χ)
    (y : Series) (objectives : List Objective) (yEnc : List Nat)
    (outputs : Option (List PyVal) × Option DataTable) (calls : List InferCall)
    (hne : objectives ≠ [])
    (hEnc : p._encode_targets y = Except.ok yEnc)
    (hCmp : p._compute_predictions x objectives = Except.ok (outputs, calls)) :
    (failuresOf objectives yEnc outputs.1 outputs.2 = [] →
      p.score x y objectives =
        Except.ok (successesOf objectives yEnc outputs.1 outputs.2)) ∧
    (failuresOf objectives yEnc outputs.1 outputs.2 ≠ [] →
      p.score x y objectives =
        Except.error (PipelineError.scoreError
          ⟨failuresOf objectives yEnc outputs.1 outputs.2,
           successesOf objectives yEnc outputs.1 outputs.2,
           (failuresOf objectives yEnc outputs.1 outputs.2).map Prod.snd⟩)) ∧
    (∀ o ∈ objectives, ∀ e,
      evalObjective o yEnc outputs.1 outputs.2 = Except.error e →
        (o.name, e) ∈ failuresOf objectives yEnc outputs.1 outputs.2 ∧
        e ∈ (failuresOf objectives yEnc outputs.1 outputs.2).map Prod.snd) ∧
    (∀ o ∈ objectives, ∀ v,
      evalObjective o yEnc outputs.1 outputs.2 = Except.ok v →
        (o.name, v) ∈ successesOf objectives yEnc outputs.1 outputs.2) ∧
    (∀ nm v, (nm, v) ∈ successesOf objectives yEnc outputs.1 outputs.2 →
      ∃ o ∈ objectives, o.name = nm ∧
        evalObjective o yEnc outputs.1 outputs.2 = Except.ok v) ∧
    (∀ nm e, (nm, e) ∈ failuresOf objectives yEnc outputs.1 outputs.2 →
      ∃ o ∈ objectives, o.name = nm ∧
        evalObjective o yEnc outputs.1 outputs.2 = Except.error e) := by
  have hscore : p.score x y objectives =
      _score_all_objectives objectives yEnc outputs.1 outputs.2 := by
    unfold ClassificationPipeline.score
    rw [hEnc, hCmp]
  refine ⟨?_, ?_, ?_, ?_, ?_, ?_⟩
  · intro hferr
    rw [hscore, score_all_objectives_eq, if_pos hferr]
  · intro hferr
    rw [hscore, score_all_objectives_eq, if_neg hferr]
  · intro o ho e he
    have hmem : (o.name, e) ∈ failuresOf objectives yEnc outputs.1 outputs.2 :=
      List.mem_filterMap.2 ⟨o, ho, by rw [he]⟩
    exact ⟨hmem, List.mem_map.2 ⟨(o.name, e), hmem, rfl⟩⟩
  · intro o ho v hv
    exact List.mem_filterMap.2 ⟨o, ho, by rw [hv]⟩
  · intro nm v hmem
    obtain ⟨o, ho, hEq⟩ := List.mem_filterMap.1 hmem
    revert hEq
    cases h : evalObjective o yEnc outputs.1 outputs.2 with
    | error e => intro hEq; cases hEq
    | ok w => intro hEq
              obtain ⟨h1, h2⟩ := Prod.mk.injEq .. ▸ Option.some.inj hEq
              exact ⟨o, ho, h1, by rw [h, h2]⟩
  · intro nm e hmem
    obtain ⟨o, ho, hEq⟩ := List.mem_filterMap.1 hmem
    revert hEq
    cases h : evalObjective o yEnc outputs.1 outputs.2 with
    | ok w => intro hEq; cases hEq
    | error e' => intro hEq
                  obtain ⟨h1, h2⟩ := Prod.mk.injEq .. ▸ Option.some.inj hEq
                  exact ⟨o, ho, h1, by rw [h, h2]⟩

/-- Witness for C1: at the concrete fitted mock pipeline with objectives
`[R2 (raises), MSE (succeeds)]`, `score` raises the aggregate error with
successes `{MSE: 0}`, the captured R2 exception, and the failure text in
the message. -/
theorem score_partial_failure_witness :
    (([badObjective, okObjective] : List Objective) ≠ []) ∧
    mockFitted.score () mockTarget [badObjective, okObjective] =
      Except.error (PipelineError.scoreError
        ⟨[("R2", "finna kabooom")], [("MSE", 0)], ["finna kabooom"]⟩) ∧
    mockFitted.score () mockTarget [okObjective] = Except.ok [("MSE", 0)] := by
  refine ⟨by simp, ?_, rfl⟩
  have h := (score_partial_failure mockFitted () mockTarget
      [badObjective, okObjective] [0, 1]
      (some [PyVal.int 1, PyVal.int 0], none) [InferCall.callPredict]
      (by simp) rfl rfl).2.1
  exact h (by decide)

/-- C2 (amended): during `score`, probabilities are computed iff some
objective needs them and label predictions iff some objective does not;
each inference kind is invoked exactly once when needed and never
otherwise (so at most once regardless of how many objectives request it),
a kind no objective needs stays `None`, the computed probability table is
exactly `predict_proba`'s output, and the computed predictions are the raw
integer-coded component-graph output (they are NOT decoded to original
labels before objective evaluation — see the counterexample). -/
theorem compute_predictions_inference {χ : Type} (p : ClassificationPipeline χ)
    (x : χ) (objectives : List Objective)
    (outputs : Option (List PyVal) × Option DataTable) (calls : List InferCall)
    (h : p._compute_predictions x objectives = Except.ok (outputs, calls)) :
    (outputs.2.isSome = true ↔
      objectives.any (fun o => o.score_needs_proba) = true) ∧
    (outputs.1.isSome = true ↔
      objectives.any (fun o => !o.score_needs_proba) = true) ∧
    calls.count InferCall.callPredictProba =
      (if objectives.any (fun o => o.score_needs_proba) then 1 else 0) ∧
    calls.count InferCall.callPredict =
      (if objectives.any (fun o => !o.score_needs_proba) then 1 else 0) ∧
    calls.count InferCall.callPredictProba ≤ 1 ∧
    calls.count InferCall.callPredict ≤ 1 ∧
    (∀ t, outputs.2 = some t → p.predict_proba x = Except.ok t) ∧
    (∀ l, outputs.1 = some l → l = p._predict x) := by
  unfold ClassificationPipeline._compute_predictions at h
  by_cases hp : objectives.any (fun o => o.score_needs_proba) = true
  · rw [if_pos hp] at h
    cases hpp : p.predict_proba x with
    | error e => rw [hpp] at h; cases h
    | ok t =>
        rw [hpp] at h
        dsimp only at h
        by_cases hq : objectives.any (fun o => !o.score_needs_proba) = true
        · rw [if_pos hq] at h
          cases h
          refine ⟨by simp [hp], by simp [hq], ?_, ?_, ?_, ?_, ?_, ?_⟩
          · simp [hp, List.count_cons]
          · simp [hq, List.count_cons]
          · simp [List.count_cons]
          · simp [List.count_cons]
          · intro t' ht'; cases ht'; rfl
          · intro l hl; cases hl; rfl
        · rw [if_neg hq] at h
          cases h
          refine ⟨by simp [hp], by simp [hq], ?_, ?_, ?_, ?_, ?_, ?_⟩
          · simp [hp, List.count_cons]
          · simp [hq, List.count_cons]
          · simp [List.count_cons]
          · simp [List.count_cons]
          · intro t' ht'; cases ht'; rfl
          · intro l hl; cases hl
  · rw [if_neg hp] at h
    by_cases hq : objectives.any (fun o => !o.score_needs_proba) = true
    · rw [if_pos hq] at h
      cases h
      refine ⟨by simp [hp], by simp [hq], ?_, ?_, ?_, ?_, ?_, ?_⟩
      · simp [hp, List.count_cons]
      · simp [hq, List.count_cons]
      · simp [List.count_cons]
      · simp [List.count_cons]
      · intro t' ht'; cases ht'
      · intro l hl; cases hl; rfl
    · rw [if_neg hq] at h
      cases h
      refine ⟨by simp [hp], by simp [hq], ?_, ?_, ?_, ?_, ?_, ?_⟩
      · simp [hp]
      · simp [hq]
      · simp
      · simp
      · intro t' ht'; cases ht'
      · intro l hl; cases hl

/-- Witness for C2 (amended) at the concrete fitted mock pipeline with one
probability objective and one prediction objective: both kinds are
computed, once each. -/
theorem compute_predictions_inference_witness :
    mockFitted._compute_predictions () [probaObjective, okObjective] =
      Except.ok ((some [PyVal.int 1, PyVal.int 0],
          some ⟨[PyVal.str "a", PyVal.str "b"],
                [[1 / 10, 9 / 10], [9 / 10, 1 / 10]]⟩),
        [InferCall.callPredictProba, InferCall.callPredict]) ∧
    [InferCall.callPredictProba, InferCall.callPredict].count
        InferCall.callPredictProba = 1 ∧
    [InferCall.callPredictProba, InferCall.callPredict].count
        InferCall.callPredict = 1 := by
  have h := compute_predictions_inference mockFitted () [probaObjective, okObjective]
    (some [PyVal.int 1, PyVal.int 0],
      some ⟨[PyVal.str "a", PyVal.str "b"], [[1 / 10, 9 / 10], [9 / 10, 1 / 10]]⟩)
    [InferCall.callPredictProba, InferCall.callPredict] rfl
  exact ⟨rfl, h.2.2.1.trans (by decide), h.2.2.2.1.trans (by decide)⟩

/-- Counterexample for C2 as stated: on the concrete fitted mock pipeline
(fit-time labels "a" < "b", graph codes [1, 0]), `predict` decodes to
["b", "a"], yet an objective that accepts exactly those decoded labels
raises inside `score` while an objective that accepts exactly the raw
codes [1, 0] succeeds — so predictions are NOT decoded before objective
evaluation. -/
theorem score_decode_counterexample :
    mockFitted.predict () =
      Except.ok ⟨some "target", [PyVal.str "b", PyVal.str "a"]⟩ ∧
    mockFitted.score () mockTarget [probeDecoded] =
      Except.error (PipelineError.scoreError
        ⟨[("probe-decoded", "objective received integer-encoded predictions")],
         [], ["objective received integer-encoded predictions"]⟩) ∧
    mockFitted.score () mockTarget [probeEncoded] =
      Except.ok [("probe-encoded", 1)] :=
  ⟨rfl, rfl, rfl⟩

/-- C3: `fit` learns as classes the distinct values of `y` in sorted
order mapped to `0..n_classes-1` (the encoded target maps each value to
its class index, always below `n_classes`), fits the component graph on
that integer-encoded target, stores the target name; decoding inverts
encoding on the training target; and `predict` returns the graph's
integer predictions decoded back to original labels as a series named by
the stored `input_target_name`, every predicted label drawn from the
fit-time class set (given the graph predicts in-range codes). -/
theorem fit_encode_decode_predict {χ : Type} (p : ClassificationPipeline χ)
    (y : Series) (x : χ)
    (hx : ∀ v ∈ p.graphPredictFn x, ∃ k : Nat,
      astypeInt v = Except.ok (Int.ofNat k) ∧
        k < (sortedUnique y.data).length) :
    p.fit y = Except.ok { p with
      encoder := ⟨some (sortedUnique y.data)⟩
      componentGraphTarget :=
        some (y.data.map (fun v => (sortedUnique y.data).indexOf v))
      input_target_name := y.name
      fitted := true } ∧
    List.Pairwise pyLeProp (sortedUnique y.data) ∧
    (sortedUnique y.data).Nodup ∧
    (∀ v, v ∈ sortedUnique y.data ↔ v ∈ y.data) ∧
    (∀ k ∈ y.data.map (fun v => (sortedUnique y.data).indexOf v),
      k < (sortedUnique y.data).length) ∧
    (∀ pf : ClassificationPipeline χ, p.fit y = Except.ok pf →
      pf._decode_targets
          ((y.data.map (fun v => (sortedUnique y.data).indexOf v)).map
            (fun k => PyVal.int (Int.ofNat k))) = Except.ok y.data ∧
      ∃ out, pf.predict x = Except.ok out ∧ out.name = y.name ∧
        ∀ w ∈ out.data, w ∈ sortedUnique y.data) := by
  refine ⟨ClassificationPipeline.fit_eq p y, sortedUnique_sorted y.data,
    sortedUnique_nodup y.data, sortedUnique_mem y.data, ?_, ?_⟩
  · intro k hk
    obtain ⟨v, hv, rfl⟩ := List.mem_map.mp hk
    exact List.indexOf_lt_length.mpr ((sortedUnique_mem y.data v).mpr hv)
  · intro pf hpf
    rw [ClassificationPipeline.fit_eq p y] at hpf
    cases hpf
    constructor
    · unfold ClassificationPipeline._decode_targets
      have hcast : ∀ codes : List Nat,
          codes.map (fun k => PyVal.int (Int.ofNat k)) =
            (codes.map Int.ofNat).map PyVal.int := by
        intro codes
        rw [List.map_map]
        rfl
      rw [hcast, astypeIntList_ints]
      dsimp only
      rw [inverse_transform_indexOf]
    · unfold ClassificationPipeline.predict
      rw [if_pos rfl]
      have hx' : ∀ v ∈ p.graphPredictFn x, ∃ i, astypeInt v = Except.ok i ∧
          ∃ k : Nat, i = Int.ofNat k ∧ k < (sortedUnique y.data).length := by
        intro v hv
        obtain ⟨k, hk, hlt⟩ := hx v hv
        exact ⟨Int.ofNat k, hk, k, rfl, hlt⟩
      obtain ⟨ks, hks, hQ⟩ := astypeIntList_ok_of (p.graphPredictFn x) hx'
      obtain ⟨vs, hvs, hmem⟩ :=
        inverse_transform_mem (sortedUnique y.data) ks (fun i hi => by
          obtain ⟨k, rfl, hk⟩ := hQ i hi
          exact ⟨Int.ofNat_nonneg k, by simpa using hk⟩)
      refine ⟨⟨y.name, vs⟩, ?_, rfl, hmem⟩
      unfold ClassificationPipeline._decode_targets ClassificationPipeline._predict
      dsimp only
      rw [hks]
      dsimp only
      rw [hvs]

/-- Witness for C3 at the concrete mock pipeline: the graph's codes are
in range, fitting yields the recorded fixture, and predicting decodes to
original labels. -/
theorem fit_encode_decode_predict_witness :
    mockPipeline.fit mockTarget = Except.ok { mockPipeline with
      encoder :=
        ⟨some (sortedUnique mockTarget.data)⟩
      componentGraphTarget :=
        some (mockTarget.data.map
          (fun v => (sortedUnique mockTarget.data).indexOf v))
      input_target_name := mockTarget.name
      fitted := true } := by
  have hx : ∀ v ∈ mockPipeline.graphPredictFn (), ∃ k : Nat,
      astypeInt v = Except.ok (Int.ofNat k) ∧
        k < (sortedUnique mockTarget.data).length := by
    intro v hv
    have hv' : v = PyVal.int 1 ∨ v = PyVal.int 0 := by
      simpa [mockPipeline, mockGraphPredict] using hv
    rcases hv' with rfl | rfl
    · exact ⟨1, rfl, by decide⟩
    · exact ⟨0, rfl, by decide⟩
  exact (fit_encode_decode_predict mockPipeline mockTarget () hx).1

/-- C4: two pipelines are equal iff same concrete class, same parameters,
same random seed and same fitted state, and — when both fitted — the same
`input_target_name`; hence an unfitted pipeline never equals a fitted one,
fitted pipelines with different stored target names are unequal, and a
subclass instance (distinct class identity) never equals its parent class
instance. -/
theorem pipeline_equality {χ : Type} (p q : ClassificationPipeline χ) :
    (pipelineEq p q = true ↔
      (p.pipelineClass = q.pipelineClass ∧ p.parameters = q.parameters ∧
       p.random_seed = q.random_seed ∧ p.fitted = q.fitted ∧
       (p.fitted = true → q.fitted = true →
         p.input_target_name = q.input_target_name))) ∧
    (p.fitted = false → q.fitted = true → pipelineEq p q = false) ∧
    (p.fitted = true → q.fitted = true →
      p.input_target_name ≠ q.input_target_name → pipelineEq p q = false) ∧
    (p.pipelineClass ≠ q.pipelineClass → pipelineEq p q = false) := by
  have hiff : pipelineEq p q = true ↔
      (p.pipelineClass = q.pipelineClass ∧ p.parameters = q.parameters ∧
       p.random_seed = q.random_seed ∧ p.fitted = q.fitted ∧
       (p.fitted = true → q.fitted = true →
         p.input_target_name = q.input_target_name)) := by
    unfold pipelineEq
    simp only [Bool.and_eq_true, Bool.or_eq_true, Bool.not_eq_true',
      Bool.and_eq_false_iff, decide_eq_true_eq]
    constructor
    · rintro ⟨⟨⟨⟨h1, h2⟩, h3⟩, h4⟩, h5⟩
      refine ⟨h1, h2, h3, h4, fun hp hq => ?_⟩
      rcases h5 with h5 | h5
      · rcases h5 with h5 | h5 <;> simp_all
      · exact h5
    · rintro ⟨h1, h2, h3, h4, h5⟩
      refine ⟨⟨⟨⟨h1, h2⟩, h3⟩, h4⟩, ?_⟩
      by_cases hp : p.fitted = true
      · exact Or.inr (h5 hp (h4 ▸ hp))
      · exact Or.inl (Or.inl (Bool.not_eq_true _ ▸ hp))
  refine ⟨hiff, ?_, ?_, ?_⟩
  · intro hp hq
    cases hEq : pipelineEq p q with
    | false => rfl
    | true =>
        have h := (hiff.mp hEq).2.2.2.1
        rw [hp, hq] at h
        cases h
  · intro hp hq hne
    cases hEq : pipelineEq p q with
    | false => rfl
    | true => exact absurd ((hiff.mp hEq).2.2.2.2 hp hq) hne
  · intro hne
    cases hEq : pipelineEq p q with
    | false => rfl
    | true => exact absurd (hiff.mp hEq).1 hne

/-- Witness for C4: the unfitted mock pipeline never equals its fitted
counterpart, a renamed-class copy is unequal, and reflexivity holds on the
fitted fixture. -/
theorem pipeline_equality_witness :
    pipelineEq mockPipeline mockFitted = false ∧
    pipelineEq { mockFitted with pipelineClass := "SubclassOfMock" }
      mockFitted = false ∧
    pipelineEq mockFitted mockFitted = true := by
  refine ⟨?_, ?_, ?_⟩
  · exact (pipeline_equality mockPipeline mockFitted).2.1 rfl rfl
  · exact (pipeline_equality { mockFitted with pipelineClass := "SubclassOfMock" }
      mockFitted).2.2.2 (by decide)
  · exact (pipeline_equality mockFitted mockFitted).1.mpr
      ⟨rfl, rfl, rfl, rfl, fun _ _ => rfl⟩

/-- C5: `clone` returns a pipeline with the same parameters and random
seed that is never fitted and shares no learned state (encoder, graph
target, stored name, threshold are all reset), and predicting from the
clone before fitting fails with the not-yet-fitted error. -/
theorem clone_unfitted {χ : Type} (p : ClassificationPipeline χ) (x : χ) :
    p.clone.parameters = p.parameters ∧
    p.clone.random_seed = p.random_seed ∧
    p.clone.fitted = false ∧
    p.clone.encoder = ⟨none⟩ ∧
    p.clone.componentGraphTarget = none ∧
    p.clone.input_target_name = none ∧
    p.clone.threshold = none ∧
    p.clone.predict x = Except.error PipelineError.notYetFitted :=
  ⟨rfl, rfl, rfl, rfl, rfl, rfl, rfl, rfl⟩

/-- C6: threshold optimization is permitted exactly when the problem type
is binary and the objective both applies to binary problems and has a
tunable threshold; when permitted it sets the threshold to the objective's
own search over the encoded targets and the predicted probabilities, and
otherwise it raises the value error (returning no modified pipeline). -/
theorem optimize_threshold_spec {χ : Type} (p : ClassificationPipeline χ)
    (x : χ) (y : Series) (proba : List Rat) (o : Objective) :
    (p.can_tune_threshold_with_objective o = true ↔
      (p.problem_type = ProblemType.binary ∧
       o.is_defined_for_problem_type ProblemType.binary = true ∧
       o.can_optimize_threshold = true)) ∧
    (∀ targets, p.can_tune_threshold_with_objective o = true →
      p._encode_targets y = Except.ok targets →
      p.optimize_threshold x y proba o =
        Except.ok { p with
          threshold := some (o.optimizeThresholdFn proba targets) }) ∧
    (p.can_tune_threshold_with_objective o = false →
      p.optimize_threshold x y proba o =
        Except.error (PipelineError.valueError
          "Problem type must be binary and objective must be optimizable.")) := by
  refine ⟨?_, ?_, ?_⟩
  · unfold ClassificationPipeline.can_tune_threshold_with_objective is_binary
    simp only [Bool.and_eq_true, beq_iff_eq]
    constructor
    · rintro ⟨⟨h1, h2⟩, h3⟩
      exact ⟨h1, h1 ▸ h2, h3⟩
    · rintro ⟨h1, h2, h3⟩
      exact ⟨⟨h1, h1 ▸ h2⟩, h3⟩
  · intro targets hcan henc
    unfold ClassificationPipeline.optimize_threshold
    rw [if_pos hcan, henc]
  · intro hcan
    unfold ClassificationPipeline.optimize_threshold
    rw [if_neg (by simp [hcan])]

/-- Witness for C6 at the concrete fitted binary pipeline and tunable
objective: permission holds, and the threshold is set to the objective's
search result 42/100; on the multiclass variant the call raises. -/
theorem optimize_threshold_spec_witness :
    mockFitted.optimize_threshold () mockTarget [9 / 10, 1 / 10]
        tunableObjective =
      Except.ok { mockFitted with threshold := some (42 / 100 : Rat) } ∧
    mockMulticlassTuned.optimize_threshold () mockTarget [9 / 10, 1 / 10]
        okObjective =
      Except.error (PipelineError.valueError
        "Problem type must be binary and objective must be optimizable.") := by
  constructor
  · have h := (optimize_threshold_spec mockFitted () mockTarget
        [9 / 10, 1 / 10] tunableObjective).2.1 [0, 1] (by decide) rfl
    exact h.trans (by rfl)
  · exact (optimize_threshold_spec mockMulticlassTuned () mockTarget
      [9 / 10, 1 / 10] okObjective).2.2 (by decide)

/-- C7 (amended): under the guard of `tune_binary_threshold` — binary
problem type, objective defined for it, tunable threshold — the pipeline's
threshold is reset to 0.5 before any re-tuning; when tuning data is also
supplied, the threshold is then re-tuned by `optimize_threshold` on the
second probability column of `predict_proba` over the tuning split.
Outside the guard (any other problem type or objective) the helper leaves
the pipeline untouched, even when a tuning split is supplied. -/
theorem tune_binary_threshold_guarded {χ : Type} (p : ClassificationPipeline χ)
    (o : Objective) (pt : ProblemType) (xt : Option χ) (yt : Series) :
    ((is_binary pt && o.is_defined_for_problem_type pt &&
        o.can_optimize_threshold) = false →
      tune_binary_threshold p o pt xt yt = Except.ok p) ∧
    ((is_binary pt && o.is_defined_for_problem_type pt &&
        o.can_optimize_threshold) = true →
      (xt = none →
        tune_binary_threshold p o pt xt yt =
          Except.ok { p with threshold := some (1 / 2 : Rat) }) ∧
      (∀ x, xt = some x → ∀ t col1,
        ({ p with threshold := some (1 / 2 : Rat) } :
            ClassificationPipeline χ).predict_proba x = Except.ok t →
        t.cols.get? 1 = some col1 →
        tune_binary_threshold p o pt xt yt =
          ({ p with threshold := some (1 / 2 : Rat) } :
            ClassificationPipeline χ).optimize_threshold x yt col1 o)) := by
  constructor
  · intro hguard
    unfold tune_binary_threshold
    rw [if_neg (by simp [hguard])]
  · intro hguard
    constructor
    · rintro rfl
      unfold tune_binary_threshold
      rw [if_pos hguard]
    · rintro x rfl t col1 hpp hcol
      unfold tune_binary_threshold
      rw [if_pos hguard]
      dsimp only
      rw [hpp]
      dsimp only
      rw [hcol]

/-- Witness for C7 (amended): on the concrete binary fixture with a
supplied tuning split, the threshold is first reset to 0.5 and then
re-tuned to the objective's search result 42/100. -/
theorem tune_binary_threshold_guarded_witness :
    tune_binary_threshold mockFitted tunableObjective ProblemType.binary
        (some ()) mockTarget =
      Except.ok { mockFitted with threshold := some (42 / 100 : Rat) } := by
  have h := ((tune_binary_threshold_guarded mockFitted tunableObjective
      ProblemType.binary (some ()) mockTarget).2 (by decide)).2 () rfl
      ⟨[PyVal.str "a", PyVal.str "b"], [[1 / 10, 9 / 10], [9 / 10, 1 / 10]]⟩
      [9 / 10, 1 / 10] rfl rfl
  exact h.trans (by rfl)

/-- Counterexample for C7 as stated: with a multiclass problem type and a
supplied tuning split, `tune_binary_threshold` neither resets the
pre-existing threshold 7/10 to 0.5 nor re-tunes it — the pipeline comes
back unchanged, refuting "the reset to 0.5 happens for any supplied
tuning split" read over every problem type. -/
theorem tune_binary_threshold_counterexample :
    tune_binary_threshold mockMulticlassTuned tunableObjective
        ProblemType.multiclass (some ()) mockTarget =
      Except.ok mockMulticlassTuned ∧
    mockMulticlassTuned.threshold = some (7 / 10 : Rat) ∧
    some (7 / 10 : Rat) ≠ some (1 / 2 : Rat) :=
  ⟨rfl, rfl, by norm_num⟩

/-- A sorted, duplicate-free list of scalars whose members are exactly
`int 0` and `int 1` is `[int 0, int 1]`. -/
theorem sorted_nodup_pair (cs : List PyVal)
    (h0 : PyVal.int 0 ∈ cs) (h1 : PyVal.int 1 ∈ cs)
    (hsub : ∀ v ∈ cs, v = PyVal.int 0 ∨ v = PyVal.int 1)
    (hnd : cs.Nodup) (hsrt : List.Pairwise pyLeProp cs) :
    cs = [PyVal.int 0, PyVal.int 1] := by
  match cs, h0, h1, hsub, hnd, hsrt with
  | [], h0, _, _, _, _ => cases h0
  | [a], h0, h1, _, _, _ =>
      have e0 : PyVal.int 0 = a := by simpa using h0
      have e1 : PyVal.int 1 = a := by simpa using h1
      rw [← e0] at e1
      cases e1
  | a :: b :: c :: rest, _, _, hsub, hnd, _ =>
      have ha := hsub a (by simp)
      have hb := hsub b (by simp)
      have hc := hsub c (by simp)
      rcases ha with rfl | rfl <;> rcases hb with rfl | rfl <;>
        rcases hc with rfl | rfl <;> simp_all
  | [a, b], _, _, hsub, hnd, hsrt =>
      have ha := hsub a (by simp)
      have hb := hsub b (by simp)
      have hab : a ≠ b := by
        intro hEq
        rw [hEq] at hnd
        simp at hnd
      have hle : pyLeProp a b := by
        have := List.pairwise_cons.mp hsrt
        exact this.1 b (by simp)
      rcases ha with rfl | rfl <;> rcases hb with rfl | rfl
      · cases hab rfl
      · rfl
      · exact absurd hle (by decide)
      · cases hab rfl

/-- C8: after fitting, `predict_proba` returns the estimator's probability
columns renamed to exactly the decoded fit-time class labels — the
distinct training target values in sorted order, one column per class —
and in the binary case with labels {0, 1} the columns are labelled
`[0, 1]`. -/
theorem predict_proba_columns {χ : Type} (p pf : ClassificationPipeline χ)
    (y : Series) (x : χ)
    (hfit : p.fit y = Except.ok pf)
    (hlen : (pf.graphPredictProbaFn x).length = (sortedUnique y.data).length) :
    pf.predict_proba x =
      Except.ok ⟨sortedUnique y.data, pf.graphPredictProbaFn x⟩ ∧
    List.Pairwise pyLeProp (sortedUnique y.data) ∧
    (sortedUnique y.data).Nodup ∧
    (∀ v, v ∈ sortedUnique y.data ↔ v ∈ y.data) ∧
    ((PyVal.int 0 ∈ y.data ∧ PyVal.int 1 ∈ y.data ∧
        (∀ v ∈ y.data, v = PyVal.int 0 ∨ v = PyVal.int 1)) →
      sortedUnique y.data = [PyVal.int 0, PyVal.int 1]) := by
  rw [ClassificationPipeline.fit_eq p y] at hfit
  cases hfit
  refine ⟨?_, sortedUnique_sorted y.data, sortedUnique_nodup y.data,
    sortedUnique_mem y.data, ?_⟩
  · unfold ClassificationPipeline.predict_proba
    dsimp only at hlen ⊢
    rw [if_pos hlen]
  · rintro ⟨h0, h1, hsub⟩
    exact sorted_nodup_pair (sortedUnique y.data)
      ((sortedUnique_mem y.data _).mpr h0)
      ((sortedUnique_mem y.data _).mpr h1)
      (fun v hv => hsub v ((sortedUnique_mem y.data v).mp hv))
      (sortedUnique_nodup y.data) (sortedUnique_sorted y.data)

/-- Witness for C8: fitting the mock pipeline on an integer {0,1} target
and predicting probabilities yields columns labelled `[0, 1]`. -/
theorem predict_proba_columns_witness :
    mockPipeline.fit ⟨some "target", [PyVal.int 1, PyVal.int 0]⟩ =
      Except.ok { mockPipeline with
        encoder := ⟨some [PyVal.int 0, PyVal.int 1]⟩
        componentGraphTarget := some [1, 0]
        input_target_name := some "target"
        fitted := true } ∧
    ({ mockPipeline with
        encoder := ⟨some [PyVal.int 0, PyVal.int 1]⟩
        componentGraphTarget := some [1, 0]
        input_target_name := some "target"
        fitted := true } : ClassificationPipeline Unit).predict_proba () =
      Except.ok ⟨[PyVal.int 0, PyVal.int 1],
        [[1 / 10, 9 / 10], [9 / 10, 1 / 10]]⟩ := by
  have h := predict_proba_columns mockPipeline
    { mockPipeline with
      encoder := ⟨some [PyVal.int 0, PyVal.int 1]⟩
      componentGraphTarget := some [1, 0]
      input_target_name := some "target"
      fitted := true }
    ⟨some "target", [PyVal.int 1, PyVal.int 0]⟩ ()
    (by rfl) (by decide)
  exact ⟨by rfl, h.1.trans (by rfl)⟩

/-- C9: generated-code export rejects non-linear pipelines with the
"not supported yet" value error, rejects a parameter value the JSON
serializer cannot represent with a type error whose message names the
offending value and says it "cannot be JSON-serialized", and produces the
textual construction script exactly for linear pipelines whose parameters
are all JSON-serializable. -/
theorem generate_pipeline_code_spec (p : CodeGenPipeline) :
    (p.linear = false →
      generate_pipeline_code p =
        Except.error (CodeGenError.valueError
          "Code generation for nonlinear pipelines is not supported yet")) ∧
    (∀ d, p.linear = true → firstNonSerializable p.parameters = some d →
      generate_pipeline_code p =
        Except.error (CodeGenError.typeError
          (d ++ " cannot be JSON-serialized"))) ∧
    (p.linear = true → firstNonSerializable p.parameters = none →
      generate_pipeline_code p = Except.ok (renderScript p)) := by
  refine ⟨?_, ?_, ?_⟩
  · intro hlin
    unfold generate_pipeline_code
    rw [if_pos (by simp [hlin])]
  · intro d hlin hser
    unfold generate_pipeline_code
    rw [if_neg (by simp [hlin]), hser]
  · intro hlin hser
    unfold generate_pipeline_code
    rw [if_neg (by simp [hlin]), hser]

/-- Witness for C9 at concrete pipelines: a linear pipeline with a numpy
array parameter fails with the type error naming the offending value, a
non-linear pipeline fails with the value error, and a linear serializable
pipeline produces its script. -/
theorem generate_pipeline_code_spec_witness :
    generate_pipeline_code
        ⟨true, "MockBinaryPipelineTransformer",
          [("My Custom Estimator",
            [("numpy_arg", CodeGenParamValue.nonSerializable "array([0])")])]⟩ =
      Except.error (CodeGenError.typeError
        "array([0]) cannot be JSON-serialized") ∧
    generate_pipeline_code ⟨false, "NonLinearBinaryPipeline", []⟩ =
      Except.error (CodeGenError.valueError
        "Code generation for nonlinear pipelines is not supported yet") ∧
    generate_pipeline_code
        ⟨true, "MockRegressionPipeline",
          [("Imputer",
            [("numeric_impute_strategy", CodeGenParamValue.jsonVal
              (PyVal.str "mean"))])]⟩ =
      Except.ok (renderScript
        ⟨true, "MockRegressionPipeline",
          [("Imputer",
            [("numeric_impute_strategy", CodeGenParamValue.jsonVal
              (PyVal.str "mean"))])]⟩) := by
  refine ⟨?_, ?_, ?_⟩
  · exact (generate_pipeline_code_spec
      ⟨true, "MockBinaryPipelineTransformer",
        [("My Custom Estimator",
          [("numpy_arg", CodeGenParamValue.nonSerializable "array([0])")])]⟩).2.1
      "array([0])" rfl rfl
  · exact (generate_pipeline_code_spec
      ⟨false, "NonLinearBinaryPipeline", []⟩).1 rfl
  · exact (generate_pipeline_code_spec
      ⟨true, "MockRegressionPipeline",
        [("Imputer",
          [("numeric_impute_strategy", CodeGenParamValue.jsonVal
            (PyVal.str "mean"))])]⟩).2.2 rfl rfl

/-- C10: the regressor import block of the estimator export list holds an
unresolved merge conflict: conflict-marker lines are present, the `HEAD`
side ends with `DecisionTreeRegressor, GAMRegressor`, the `main` side with
`TimeSeriesBaselineRegressor, DecisionTreeRegressor`, the two sides
diverge, and importing the module fails with a syntax error instead of
producing an estimator roster. -/
theorem estimators_merge_conflict :
    hasMergeConflict regressors_import_lines = true ∧
    headBranchEntries regressors_import_lines =
      ["DecisionTreeRegressor", "GAMRegressor"] ∧
    mainBranchEntries regressors_import_lines =
      ["TimeSeriesBaselineRegressor", "DecisionTreeRegressor"] ∧
    headBranchEntries regressors_import_lines ≠
      mainBranchEntries regressors_import_lines ∧
    importEstimatorsModule regressors_import_lines =
      Except.error "SyntaxError: invalid syntax" :=
  ⟨by decide, by decide, by decide, by decide, rfl⟩

end EvalML
